import Mathlib

/-!
Shallow embedding of the S3-compatible object-storage client core of the
`go-common` repository: the configuration model and resolver
(`Config`, `detectProviderType`, `autoConfigureForProvider`, `NewClient`),
the validation helpers (`ValidateConfig`, `ValidateKey`,
`ValidateMinIOConfig`), the error taxonomy (`WrapS3Error` and the sentinel
errors), and the object-client operations (`Upload`, `Download`, `Delete`,
`DeleteMultiple`, `Exists`, `GetObjectInfo`, `GeneratePresignedURL`, ...).

Go `error` values are modelled by the inductive type `S3Err`; a nullable
`error` is `Option S3Err`.  `errors.Is` walks the wrap chain comparing
against a target sentinel; `errors.As` with a `*types.X` target looks for a
transport error of dynamic type `X` in the chain.  `fmt.Errorf` with a `%w`
verb is the `wrapErr` constructor, whose string field holds the fully
formatted message; `fmt.Errorf`/`errors.New` without `%w` is `goError`.

Client operations delegate to the AWS SDK transport; the transport is an
explicit function parameter mapping the request the operation builds to the
response of the provider, so that theorems can quantify over provider behaviour.
-/

namespace GoCommon

/-- Go `error` values appearing in the s3 package: the six sentinel errors of
`errors.go`, the AWS SDK typed errors matched via `errors.As`, plain errors
built without `%w`, and `%w`-wrapped errors (message field holds the full
formatted text, the second field the wrapped error). -/
inductive S3Err where
  | errObjectNotFound
  | errBucketNotFound
  | errAccessDenied
  | errInvalidConfig
  | errEmptyKey
  | errEmptyBucketName
  | typesNotFound (msg : String)
  | typesNoSuchBucket (msg : String)
  | typesNoSuchKey (msg : String)
  | goError (msg : String)
  | wrapErr (msg : String) (inner : S3Err)
deriving DecidableEq, Repr, BEq

namespace S3Err

/-- `err.Error()`: the message of each error value.  The sentinels carry the
strings given to `errors.New` in `errors.go`. -/
def message : S3Err → String
  | errObjectNotFound => "object not found"
  | errBucketNotFound => "bucket not found"
  | errAccessDenied => "access denied"
  | errInvalidConfig => "invalid configuration"
  | errEmptyKey => "object key cannot be empty"
  | errEmptyBucketName => "bucket name cannot be empty"
  | typesNotFound m => m
  | typesNoSuchBucket m => m
  | typesNoSuchKey m => m
  | goError m => m
  | wrapErr m _ => m

/-- The `errors.Unwrap` chain of an error: the error itself followed by
everything it wraps. -/
def chain : S3Err → List S3Err
  | wrapErr m inner => wrapErr m inner :: chain inner
  | e => [e]

/-- `errors.Is(e, target)` for a sentinel target: some error in the unwrap
chain equals the target. -/
def errorsIs (e target : S3Err) : Bool :=
  (chain e).contains target

/-- `errors.As(e, &x)` for `x *types.NotFound`. -/
def asNotFound (e : S3Err) : Bool :=
  (chain e).any fun x => match x with | typesNotFound _ => true | _ => false

/-- `errors.As(e, &x)` for `x *types.NoSuchBucket`. -/
def asNoSuchBucket (e : S3Err) : Bool :=
  (chain e).any fun x => match x with | typesNoSuchBucket _ => true | _ => false

/-- `errors.As(e, &x)` for `x *types.NoSuchKey`. -/
def asNoSuchKey (e : S3Err) : Bool :=
  (chain e).any fun x => match x with | typesNoSuchKey _ => true | _ => false

end S3Err

open S3Err

/-- `WrapS3Error` from `errors.go`: `nil` passes through; a transport error
whose chain holds a `*types.NotFound` or `*types.NoSuchKey` is rewrapped
around `ErrObjectNotFound`, a `*types.NoSuchBucket` around
`ErrBucketNotFound` (each keeping the original message as context after the
sentinel text); anything else is returned unchanged. -/
def WrapS3Error : Option S3Err → Option S3Err
  | none => none
  | some e =>
    if asNotFound e then
      some (wrapErr (errObjectNotFound.message ++ ": " ++ e.message) errObjectNotFound)
    else if asNoSuchBucket e then
      some (wrapErr (errBucketNotFound.message ++ ": " ++ e.message) errBucketNotFound)
    else if asNoSuchKey e then
      some (wrapErr (errObjectNotFound.message ++ ": " ++ e.message) errObjectNotFound)
    else
      some e

/-- The `Config` struct of `config.go`.  `UsePathStyle *bool` is
`Option Bool` (`none` = auto-detect). -/
structure Config where
  Provider : String
  Region : String
  AccessKeyID : String
  SecretAccessKey : String
  Endpoint : String
  BucketName : String
  UseSSL : Bool
  UsePathStyle : Option Bool
deriving DecidableEq, Repr

/-- `ValidateConfig` from `errors.go`: nil config and missing credentials are
invalid-configuration, an empty bucket is empty-bucket-name, and an empty
region is defaulted to `us-east-1` (the in-place mutation is modelled by
returning the updated config). -/
def ValidateConfig : Option Config → Except S3Err Config
  | none => .error .errInvalidConfig
  | some cfg =>
    if cfg.BucketName = "" then
      .error .errEmptyBucketName
    else if cfg.AccessKeyID = "" || cfg.SecretAccessKey = "" then
      .error (.wrapErr (S3Err.errInvalidConfig.message ++
        ": access key ID and secret access key are required") .errInvalidConfig)
    else if cfg.Region = "" then
      .ok { cfg with Region := "us-east-1" }
    else
      .ok cfg

/-- `ValidateKey` from `errors.go`: an empty key is rejected with
`ErrEmptyKey`. -/
def ValidateKey (key : String) : Except S3Err Unit :=
  if key = "" then .error .errEmptyKey else .ok ()

/-- `strings.Contains s pat` on the underlying character lists. -/
def hasSubstr : List Char → List Char → Bool
  | s, pat =>
    pat.isPrefixOf s ||
      match s with
      | [] => false
      | _ :: rest => hasSubstr rest pat

/-- `strings.Contains` for `String`. -/
def strContains (s pat : String) : Bool :=
  hasSubstr s.toList pat.toList

/-- `strings.ToLower` (ASCII case folding, as applied to endpoint URLs). -/
def strToLower (s : String) : String :=
  ⟨s.data.map Char.toLower⟩

/-- `strings.HasPrefix`. -/
def strStartsWith (s pre : String) : Bool :=
  pre.data.isPrefixOf s.data

/-- `validateProvider` from `config.go`: accepts exactly the four provider
constants, otherwise fails with a plain formatted error. -/
def validateProvider (provider : String) : Except S3Err Unit :=
  if provider = "aws" || provider = "minio" || provider = "digitalocean" ||
      provider = "custom" then
    .ok ()
  else
    .error (.goError ("invalid provider: " ++ provider ++
      ". Valid providers are: aws, minio, digitalocean, custom"))

/-- `detectProviderType` from `config.go`: fallback provider detection from
the endpoint string (case-insensitive via `strings.ToLower`). -/
def detectProviderType (endpoint : String) : String :=
  if endpoint = "" then "aws"
  else
    let e := strToLower endpoint
    if strContains e "digitaloceanspaces.com" then "digitalocean"
    else if strContains e "localhost" || strContains e "127.0.0.1" ||
        strContains e ":9000" || strContains e "minio" then "minio"
    else "custom"

/-- `autoConfigureForProvider` from `config.go`: provider detection when
unset, region defaulting, the MinIO region force, SSL inference from the
endpoint scheme for MinIO/custom, path-style defaulting, and the final
MinIO/custom path-style force.  The in-place mutations are modelled by
threading the config through each step. -/
def autoConfigureForProvider (cfg : Config) : Config :=
  let providerType := if cfg.Provider = "" then detectProviderType cfg.Endpoint
    else cfg.Provider
  let cfg := { cfg with Provider := providerType }
  let cfg :=
    if cfg.Region = "" then
      if providerType = "aws" then { cfg with Region := "us-east-1" }
      else if providerType = "digitalocean" then { cfg with Region := "nyc3" }
      else { cfg with Region := "us-east-1" }
    else cfg
  let cfg :=
    if providerType = "minio" && cfg.Region ≠ "us-east-1" then
      { cfg with Region := "us-east-1" }
    else cfg
  let cfg :=
    if (providerType = "minio" || providerType = "custom") && cfg.Endpoint ≠ "" then
      if strStartsWith (strToLower cfg.Endpoint) "http://" then
        { cfg with UseSSL := false }
      else if strStartsWith (strToLower cfg.Endpoint) "https://" then
        { cfg with UseSSL := true }
      else cfg
    else cfg
  let cfg :=
    match cfg.UsePathStyle with
    | none =>
      if providerType = "aws" then { cfg with UsePathStyle := some false }
      else if providerType = "digitalocean" then { cfg with UsePathStyle := some false }
      else { cfg with UsePathStyle := some true }
    | some _ => cfg
  if providerType = "minio" || providerType = "custom" then
    { cfg with UsePathStyle := some true }
  else cfg

/-- `ValidateMinIOConfig` from `minio.go`: non-MinIO configs pass; MinIO
requires a non-empty endpoint (plain error otherwise); an explicit
virtual-hosted addressing style is forced back to path-style after a logged
warning. -/
def ValidateMinIOConfig (cfg : Config) : Except S3Err Config :=
  if cfg.Provider ≠ "minio" then .ok cfg
  else if cfg.Endpoint = "" then
    .error (.goError "MinIO requires an endpoint to be specified")
  else
    match cfg.UsePathStyle with
    | some false => .ok { cfg with UsePathStyle := some true }
    | _ => .ok cfg

/-- The configuration-resolution prefix of `NewClient` from `config.go`:
general validation, provider validation when explicitly set,
auto-configuration, and MinIO-specific validation, in that order; the
resolved config the transport client is then built from. -/
def NewClientResolve (cfg : Option Config) : Except S3Err Config :=
  match ValidateConfig cfg with
  | .error e => .error e
  | .ok cfg =>
    match (if cfg.Provider = "" then Except.ok () else validateProvider cfg.Provider) with
    | .error e => .error e
    | .ok _ => ValidateMinIOConfig (autoConfigureForProvider cfg)

/-! ## Object client operations (`client.go`)

Each operation is parameterized by the transport function the
`s3.Client` provides for the request type it builds; the operation
validates its inputs, builds the request, delegates, and normalizes
errors through `WrapS3Error`. -/

/-- The `Object` struct of `client.go` (timestamps as abstract `Nat`). -/
structure Object where
  Key : String
  Size : Int
  LastModified : Nat
  ETag : String
deriving DecidableEq, Repr

/-- The `UploadOptions` struct of `client.go`.  The metadata map is an
association list. -/
structure UploadOptions where
  ContentType : String
  Metadata : List (String × String)
deriving DecidableEq, Repr

/-- The `s3.PutObjectInput` fields `Upload`/`UploadFromReader` populate;
`body` is the payload (`[]byte` buffer or reader), optional fields are
`none` when the Go code leaves them unset. -/
structure PutObjectInput (β : Type) where
  bucket : String
  key : String
  body : β
  contentType : Option String
  metadata : Option (List (String × String))
deriving DecidableEq, Repr

/-- The `s3.GetObjectInput` / `s3.HeadObjectInput` / `s3.DeleteObjectInput`
fields the single-key operations populate. -/
structure KeyedInput where
  bucket : String
  key : String
deriving DecidableEq, Repr

/-- The `s3.DeleteObjectsInput` fields `DeleteMultiple` populates: the bucket
and the object identifiers built from the key list, in order. -/
structure DeleteObjectsInput where
  bucket : String
  objects : List String
deriving DecidableEq, Repr

/-- `Client.Upload`: validate the key, normalize nil options to the empty
options, build the put request (content type and metadata only when
non-empty), delegate to the transport, and wrap any transport error. -/
def Upload (bucketName : String) (key : String) (data : List (UInt8))
    (opts : Option UploadOptions)
    (transport : PutObjectInput (List (UInt8)) → Except S3Err Unit) :
    Except S3Err Unit :=
  match ValidateKey key with
  | .error e => .error e
  | .ok _ =>
    let o := match opts with
      | none => ({ ContentType := "", Metadata := [] } : UploadOptions)
      | some o => o
    let input : PutObjectInput (List (UInt8)) :=
      { bucket := bucketName, key := key, body := data
        contentType := if o.ContentType ≠ "" then some o.ContentType else none
        metadata := if o.Metadata.length > 0 then some o.Metadata else none }
    match transport input with
    | .error e =>
      match WrapS3Error (some (.wrapErr ("failed to upload object " ++ key ++
          ": " ++ e.message) e)) with
      | some e => .error e
      | none => .ok ()
    | .ok _ => .ok ()

/-- `Client.UploadFromReader`: same contract as `Upload` with an abstract
reader (type `ρ`) as body. -/
def UploadFromReader {ρ : Type} (bucketName : String) (key : String)
    (reader : ρ) (opts : Option UploadOptions)
    (transport : PutObjectInput ρ → Except S3Err Unit) : Except S3Err Unit :=
  match ValidateKey key with
  | .error e => .error e
  | .ok _ =>
    let o := match opts with
      | none => ({ ContentType := "", Metadata := [] } : UploadOptions)
      | some o => o
    let input : PutObjectInput ρ :=
      { bucket := bucketName, key := key, body := reader
        contentType := if o.ContentType ≠ "" then some o.ContentType else none
        metadata := if o.Metadata.length > 0 then some o.Metadata else none }
    match transport input with
    | .error e =>
      match WrapS3Error (some (.wrapErr ("failed to upload object " ++ key ++
          ": " ++ e.message) e)) with
      | some e => .error e
      | none => .ok ()
    | .ok _ => .ok ()

/-- `Client.Download`: validate the key, issue the get request, wrap
transport errors, return the body bytes. -/
def Download (bucketName : String) (key : String)
    (transport : KeyedInput → Except S3Err (List (UInt8))) :
    Except S3Err (List (UInt8)) :=
  match ValidateKey key with
  | .error e => .error e
  | .ok _ =>
    match transport { bucket := bucketName, key := key } with
    | .error e =>
      match WrapS3Error (some (.wrapErr ("failed to download object " ++ key ++
          ": " ++ e.message) e)) with
      | some e => .error e
      | none => .ok []
    | .ok data => .ok data

/-- `Client.DownloadToWriter`: validate the key, issue the get request, wrap
transport errors, copy the body into the writer of the caller (the copy is
outside the model). -/
def DownloadToWriter (bucketName : String) (key : String)
    (transport : KeyedInput → Except S3Err (List (UInt8))) :
    Except S3Err Unit :=
  match ValidateKey key with
  | .error e => .error e
  | .ok _ =>
    match transport { bucket := bucketName, key := key } with
    | .error e =>
      match WrapS3Error (some (.wrapErr ("failed to download object " ++ key ++
          ": " ++ e.message) e)) with
      | some e => .error e
      | none => .ok ()
    | .ok _ => .ok ()

/-- `Client.Delete`: validate the key, issue the delete request, wrap
transport errors.  The protocol does not distinguish deleted from absent. -/
def Delete (bucketName : String) (key : String)
    (transport : KeyedInput → Except S3Err Unit) : Except S3Err Unit :=
  match ValidateKey key with
  | .error e => .error e
  | .ok _ =>
    match transport { bucket := bucketName, key := key } with
    | .error e =>
      match WrapS3Error (some (.wrapErr ("failed to delete object " ++ key ++
          ": " ++ e.message) e)) with
      | some e => .error e
      | none => .ok ()
    | .ok _ => .ok ()

/-- `Client.DeleteMultiple`: an empty key list succeeds immediately;
otherwise one bulk-delete request is issued with all keys; a transport
failure is wrapped; per-key failures reported by the provider (the key names
in `result.Errors`) produce an aggregate plain error joining the failed keys
with `", "`. -/
def DeleteMultiple (bucketName : String) (keys : List String)
    (transport : DeleteObjectsInput → Except S3Err (List String)) :
    Except S3Err Unit :=
  if keys.length = 0 then .ok ()
  else
    match transport { bucket := bucketName, objects := keys } with
    | .error e =>
      match WrapS3Error (some (.wrapErr ("failed to delete multiple objects: " ++
          e.message) e)) with
      | some e => .error e
      | none => .ok ()
    | .ok failedKeys =>
      if failedKeys.length > 0 then
        .error (.goError ("failed to delete some objects: " ++
          String.intercalate ", " failedKeys))
      else .ok ()

/-- `Client.Exists`: validate the key, issue the head request; a
`*types.NotFound` or `*types.NoSuchKey` transport error means the object is
absent (`false` with no error); other transport errors are wrapped. -/
def Exists (bucketName : String) (key : String)
    (transport : KeyedInput → Except S3Err Unit) : Except S3Err Bool :=
  match ValidateKey key with
  | .error e => .error e
  | .ok _ =>
    match transport { bucket := bucketName, key := key } with
    | .error e =>
      if asNotFound e || asNoSuchKey e then .ok false
      else
        match WrapS3Error (some (.wrapErr ("failed to check if object exists " ++
            key ++ ": " ++ e.message) e)) with
        | some e => .error e
        | none => .ok false
    | .ok _ => .ok true

/-- The metadata a head-object response carries. -/
structure HeadObjectOutput where
  contentLength : Int
  lastModified : Nat
  etag : String
deriving DecidableEq, Repr

/-- `Client.GetObjectInfo`: validate the key, issue the head request, wrap
transport errors, project the response metadata into an `Object`. -/
def GetObjectInfo (bucketName : String) (key : String)
    (transport : KeyedInput → Except S3Err HeadObjectOutput) :
    Except S3Err Object :=
  match ValidateKey key with
  | .error e => .error e
  | .ok _ =>
    match transport { bucket := bucketName, key := key } with
    | .error e =>
      match WrapS3Error (some (.wrapErr ("failed to get object info " ++ key ++
          ": " ++ e.message) e)) with
      | some e => .error e
      | none => .error .errObjectNotFound
    | .ok r =>
      .ok { Key := key, Size := r.contentLength, LastModified := r.lastModified,
            ETag := r.etag }

/-- `Client.GeneratePresignedURL`: validate the key, presign a get request
for the given expiration (a duration, as `Nat`), wrap errors. -/
def GeneratePresignedURL (bucketName : String) (key : String)
    (expiration : Nat)
    (transport : KeyedInput → Nat → Except S3Err String) :
    Except S3Err String :=
  match ValidateKey key with
  | .error e => .error e
  | .ok _ =>
    match transport { bucket := bucketName, key := key } expiration with
    | .error e =>
      match WrapS3Error (some (.wrapErr ("failed to generate presigned URL for " ++
          key ++ ": " ++ e.message) e)) with
      | some e => .error e
      | none => .ok ""
    | .ok url => .ok url

/-- `errors.Is(err, target)` on a nullable error: a nil error matches no
sentinel. -/
def errorsIsOpt (e : Option S3Err) (target : S3Err) : Bool :=
  match e with
  | none => false
  | some e => errorsIs e target

/-- The errors the S3 transport collaborator can report to an operation: the
three typed conditions of the AWS SDK and a generic transport failure. -/
inductive TransportErr where
  | notFound (msg : String)
  | noSuchBucket (msg : String)
  | noSuchKey (msg : String)
  | generic (msg : String)
deriving DecidableEq, Repr

/-- The error value a transport error surfaces as. -/
def TransportErr.toS3Err : TransportErr → S3Err
  | .notFound m => .typesNotFound m
  | .noSuchBucket m => .typesNoSuchBucket m
  | .noSuchKey m => .typesNoSuchKey m
  | .generic m => .goError m

/-! ## Theorems -/

theorem wrapS3Error_objNF_fixed (M : String) :
    WrapS3Error (some (.wrapErr M .errObjectNotFound)) =
      some (.wrapErr M .errObjectNotFound) := rfl

theorem wrapS3Error_bktNF_fixed (M : String) :
    WrapS3Error (some (.wrapErr M .errBucketNotFound)) =
      some (.wrapErr M .errBucketNotFound) := rfl

/-- C7: `WrapS3Error` (the error normalizer) maps nil to nil and is
idempotent: applying it twice equals applying it once, so an
already-normalized error is returned unchanged. -/
theorem wrapS3Error_nil_and_idempotent :
    WrapS3Error none = none ∧
    ∀ e : Option S3Err, WrapS3Error (WrapS3Error e) = WrapS3Error e := by
  refine ⟨rfl, ?_⟩
  intro e
  cases e with
  | none => rfl
  | some err =>
    by_cases h1 : asNotFound err = true
    · have hin : WrapS3Error (some err) =
          some (.wrapErr (S3Err.errObjectNotFound.message ++ ": " ++ err.message)
            .errObjectNotFound) := by
        show (if asNotFound err = true then _ else _) = _
        rw [if_pos h1]
      rw [hin]
      exact wrapS3Error_objNF_fixed _
    · by_cases h2 : asNoSuchBucket err = true
      · have hin : WrapS3Error (some err) =
            some (.wrapErr (S3Err.errBucketNotFound.message ++ ": " ++ err.message)
              .errBucketNotFound) := by
          show (if asNotFound err = true then _ else _) = _
          rw [if_neg h1, if_pos h2]
        rw [hin]
        exact wrapS3Error_bktNF_fixed _
      · by_cases h3 : asNoSuchKey err = true
        · have hin : WrapS3Error (some err) =
              some (.wrapErr (S3Err.errObjectNotFound.message ++ ": " ++ err.message)
                .errObjectNotFound) := by
            show (if asNotFound err = true then _ else _) = _
            rw [if_neg h1, if_neg h2, if_pos h3]
          rw [hin]
          exact wrapS3Error_objNF_fixed _
        · have hin : WrapS3Error (some err) = some err := by
            show (if asNotFound err = true then _ else _) = _
            rw [if_neg h1, if_neg h2, if_neg h3]
          rw [hin]
          exact hin

/-- C10: `Upload` with a nil options pointer behaves identically to `Upload`
with empty options: the nil is normalized to the zero options value, so the
same request is built and the same result returned, for every key, payload
and transport. -/
theorem upload_nil_opts_eq_empty_opts (bucket key : String)
    (data : List (UInt8))
    (t : PutObjectInput (List (UInt8)) → Except S3Err Unit) :
    Upload bucket key data none t =
      Upload bucket key data (some { ContentType := "", Metadata := [] }) t := rfl

/-- C9 counterexample: the transport error an access-denied provider response
actually surfaces as (the SDK api error string) is passed through unwrapped
by `WrapS3Error` and its result does not match `ErrAccessDenied` under the
kind check — the taxonomy at this input does not produce the access-denied
kind, and neither do the typed not-found or no-such-bucket inputs. -/
theorem wrapS3Error_no_access_denied_at_inputs :
    WrapS3Error (some (.goError
        "operation error S3: GetObject, api error AccessDenied: Access Denied")) =
      some (.goError
        "operation error S3: GetObject, api error AccessDenied: Access Denied") ∧
    errorsIsOpt (WrapS3Error (some (.goError
        "operation error S3: GetObject, api error AccessDenied: Access Denied")))
      .errAccessDenied = false ∧
    errorsIsOpt (WrapS3Error (some (.typesNotFound "not found")))
      .errAccessDenied = false ∧
    errorsIsOpt (WrapS3Error (some (.typesNoSuchBucket "no such bucket")))
      .errAccessDenied = false := ⟨rfl, rfl, rfl, rfl⟩

/-- C9 (amended): the error taxonomy produces the object-not-found kind (from
typed not-found and no-such-key transport errors) and the bucket-not-found
kind (from no-such-bucket), but it never produces the access-denied kind:
`ErrAccessDenied` is declared yet unreachable through `WrapS3Error` for every
transport error input. -/
theorem wrapS3Error_producible_kinds :
    errorsIsOpt (WrapS3Error (some (.typesNotFound "m"))) .errObjectNotFound = true ∧
    errorsIsOpt (WrapS3Error (some (.typesNoSuchKey "m"))) .errObjectNotFound = true ∧
    errorsIsOpt (WrapS3Error (some (.typesNoSuchBucket "m"))) .errBucketNotFound = true ∧
    ∀ (t : TransportErr) (ctx : String),
      errorsIsOpt (WrapS3Error (some t.toS3Err)) .errAccessDenied = false ∧
      errorsIsOpt (WrapS3Error (some (.wrapErr ctx t.toS3Err)))
        .errAccessDenied = false := by
  refine ⟨rfl, rfl, rfl, ?_⟩
  intro t ctx
  cases t <;> exact ⟨rfl, rfl⟩

/-- C8: `DeleteMultiple` on an empty key list succeeds for every transport
(no transport call can influence the result), and on a non-empty list where
the provider reports per-key failures it fails with the aggregate error
naming exactly the failed keys, comma-joined. -/
theorem deleteMultiple_contract :
    (∀ bucket (t : DeleteObjectsInput → Except S3Err (List String)),
      DeleteMultiple bucket [] t = .ok ()) ∧
    (∀ bucket keys (t : DeleteObjectsInput → Except S3Err (List String)) failed,
      keys ≠ [] → t { bucket := bucket, objects := keys } = .ok failed →
      failed ≠ [] →
      DeleteMultiple bucket keys t =
        .error (.goError ("failed to delete some objects: " ++
          String.intercalate ", " failed))) := by
  constructor
  · intro bucket t
    rfl
  · intro bucket keys t failed hk ht hf
    have hk0 : ¬keys.length = 0 := fun hh => hk (List.length_eq_zero.mp hh)
    have hgt : failed.length > 0 := List.length_pos.mpr hf
    simp only [DeleteMultiple, if_neg hk0, ht]
    rw [if_pos hgt]

/-- C8 witness: three keys, the provider reports key b failed: the aggregate
error names exactly b. -/
theorem deleteMultiple_contract_witness :
    DeleteMultiple "bkt" ["a", "b", "c"] (fun _ => Except.ok ["b"]) =
      .error (.goError ("failed to delete some objects: " ++
        String.intercalate ", " ["b"])) :=
  deleteMultiple_contract.2 "bkt" ["a", "b", "c"] (fun _ => Except.ok ["b"])
    ["b"] (by decide) rfl (by decide)

/-- C3 counterexample: `DeleteMultiple` on a key list holding an empty string
does not fail with the empty-key error; it issues the bulk-delete request and
follows the transport outcome. -/
theorem deleteMultiple_skips_key_validation :
    DeleteMultiple "bkt" [""] (fun _ => Except.ok []) = .ok () ∧
    DeleteMultiple "bkt" [""] (fun _ => Except.ok []) ≠
      .error S3Err.errEmptyKey :=
  ⟨rfl, fun h => Except.noConfusion h⟩

/-- C3 (amended): `ValidateKey` rejects exactly the empty key with
`ErrEmptyKey`, and every single-key Object Client operation invokes it first,
failing with `ErrEmptyKey` on an empty key for every transport (so before any
transport call); `DeleteMultiple`, however, performs no key validation: with
an empty string in the key list it issues the bulk-delete request and can
succeed. -/
theorem validateKey_and_operations :
    ValidateKey "" = .error .errEmptyKey ∧
    (∀ k : String, k ≠ "" → ValidateKey k = .ok ()) ∧
    (∀ bucket data opts (t : PutObjectInput (List (UInt8)) → Except S3Err Unit),
      Upload bucket "" data opts t = .error .errEmptyKey) ∧
    (∀ (ρ : Type) (bucket : String) (r : ρ) opts
        (t : PutObjectInput ρ → Except S3Err Unit),
      UploadFromReader bucket "" r opts t = .error .errEmptyKey) ∧
    (∀ bucket (t : KeyedInput → Except S3Err (List (UInt8))),
      Download bucket "" t = .error .errEmptyKey) ∧
    (∀ bucket (t : KeyedInput → Except S3Err (List (UInt8))),
      DownloadToWriter bucket "" t = .error .errEmptyKey) ∧
    (∀ bucket (t : KeyedInput → Except S3Err Unit),
      Delete bucket "" t = .error .errEmptyKey) ∧
    (∀ bucket (t : KeyedInput → Except S3Err Unit),
      Exists bucket "" t = .error .errEmptyKey) ∧
    (∀ bucket (t : KeyedInput → Except S3Err HeadObjectOutput),
      GetObjectInfo bucket "" t = .error .errEmptyKey) ∧
    (∀ bucket exp (t : KeyedInput → Nat → Except S3Err String),
      GeneratePresignedURL bucket "" exp t = .error .errEmptyKey) ∧
    (∀ bucket ks, DeleteMultiple bucket ("" :: ks) (fun _ => Except.ok []) =
      .ok ()) := by
  refine ⟨rfl, ?_, fun _ _ _ _ => rfl, fun _ _ _ _ _ => rfl, fun _ _ => rfl,
    fun _ _ => rfl, fun _ _ => rfl, fun _ _ => rfl, fun _ _ => rfl,
    fun _ _ _ => rfl, fun _ _ => rfl⟩
  intro k hk
  simp [ValidateKey, hk]

/-- C3 witness: the non-empty key clause at the key k. -/
theorem validateKey_and_operations_witness : ValidateKey "k" = .ok () :=
  validateKey_and_operations.2.1 "k" (by decide)

/-- C1: for the DigitalOcean scenario config (auto provider, endpoint
nyc3.digitaloceanspaces.com, bucket b, credentials supplied, empty region)
the constructor resolution yields provider digitalocean and virtual-hosted
addressing, but region us-east-1 — not nyc3 — because `ValidateConfig` has
already defaulted the empty region before `autoConfigureForProvider` runs,
whereas `autoConfigureForProvider` alone (the step the spec scenario
describes) would yield the DigitalOcean default region nyc3. -/
theorem newClient_do_scenario_region :
    NewClientResolve (some
      { Provider := "", Region := "", AccessKeyID := "ak",
        SecretAccessKey := "sk", Endpoint := "https://nyc3.digitaloceanspaces.com",
        BucketName := "b", UseSSL := false, UsePathStyle := none }) =
    Except.ok
      { Provider := "digitalocean", Region := "us-east-1",
        AccessKeyID := "ak", SecretAccessKey := "sk",
        Endpoint := "https://nyc3.digitaloceanspaces.com", BucketName := "b",
        UseSSL := false, UsePathStyle := some false } ∧
    (autoConfigureForProvider
      { Provider := "", Region := "", AccessKeyID := "ak",
        SecretAccessKey := "sk", Endpoint := "https://nyc3.digitaloceanspaces.com",
        BucketName := "b", UseSSL := false, UsePathStyle := none }).Region =
      "nyc3" := ⟨rfl, rfl⟩

/-- C2 counterexample: a MinIO config with an empty endpoint (bucket and
credentials supplied) fails resolution with the plain endpoint error, which
does not match `ErrInvalidConfig` under the error-kind check. -/
theorem minio_empty_endpoint_error_kind :
    NewClientResolve (some
      { Provider := "minio", Region := "",
        AccessKeyID := "ak", SecretAccessKey := "sk", Endpoint := "",
        BucketName := "b", UseSSL := false, UsePathStyle := none }) =
      .error (.goError "MinIO requires an endpoint to be specified") ∧
    errorsIsOpt (some (.goError "MinIO requires an endpoint to be specified"))
      .errInvalidConfig = false := ⟨rfl, rfl⟩

/-- C4: provider detection for configurations with an unset provider: an
endpoint containing (case-insensitively) digitaloceanspaces.com maps to
digitalocean — taking precedence over the MinIO patterns —, an empty
endpoint maps to aws, otherwise the patterns localhost, 127.0.0.1, :9000 or
minio map to minio, and anything else maps to custom. -/
theorem detectProviderType_rules (e : String) :
    (e = "" → detectProviderType e = "aws") ∧
    (strContains (strToLower e) "digitaloceanspaces.com" = true →
      detectProviderType e = "digitalocean") ∧
    (e ≠ "" → strContains (strToLower e) "digitaloceanspaces.com" = false →
      (strContains (strToLower e) "localhost" ||
        strContains (strToLower e) "127.0.0.1" ||
        strContains (strToLower e) ":9000" ||
        strContains (strToLower e) "minio") = true →
      detectProviderType e = "minio") ∧
    (e ≠ "" → strContains (strToLower e) "digitaloceanspaces.com" = false →
      (strContains (strToLower e) "localhost" ||
        strContains (strToLower e) "127.0.0.1" ||
        strContains (strToLower e) ":9000" ||
        strContains (strToLower e) "minio") = false →
      detectProviderType e = "custom") := by
  refine ⟨?_, ?_, ?_, ?_⟩
  · intro h
    subst h
    rfl
  · intro h
    by_cases he : e = ""
    · rw [he] at h
      exact absurd h (by decide)
    · simp only [detectProviderType]
      rw [if_neg he, if_pos h]
  · intro he h1 h2
    simp only [detectProviderType]
    rw [if_neg he, if_neg (by simp [h1]), if_pos h2]
  · intro he h1 h2
    simp only [detectProviderType]
    rw [if_neg he, if_neg (by simp [h1]), if_neg (by simp [h2])]

/-- C4 witness: the four detection rules at concrete endpoints. -/
theorem detectProviderType_rules_witness :
    detectProviderType "" = "aws" ∧
    detectProviderType "https://nyc3.digitaloceanspaces.com" = "digitalocean" ∧
    detectProviderType "http://localhost:9000" = "minio" ∧
    detectProviderType "https://storage.example.com" = "custom" :=
  ⟨(detectProviderType_rules "").1 rfl,
   (detectProviderType_rules "https://nyc3.digitaloceanspaces.com").2.1 (by decide),
   (detectProviderType_rules "http://localhost:9000").2.2.1 (by decide) (by decide)
     (by decide),
   (detectProviderType_rules "https://storage.example.com").2.2.2 (by decide)
     (by decide) (by decide)⟩

/-- C6: `ValidateConfig` fails with `ErrInvalidConfig` on an absent config,
with `ErrEmptyBucketName` on an empty bucket, with an error matching
`ErrInvalidConfig` when a credential field is empty, and otherwise succeeds,
its only mutation being the defaulting of an empty region to us-east-1. -/
theorem validateConfig_spec :
    ValidateConfig none = .error .errInvalidConfig ∧
    ∀ cfg : Config,
      (cfg.BucketName = "" →
        ValidateConfig (some cfg) = .error .errEmptyBucketName) ∧
      (cfg.BucketName ≠ "" →
        (cfg.AccessKeyID = "" ∨ cfg.SecretAccessKey = "") →
        ∃ e, ValidateConfig (some cfg) = .error e ∧
          errorsIs e .errInvalidConfig = true) ∧
      (cfg.BucketName ≠ "" → cfg.AccessKeyID ≠ "" → cfg.SecretAccessKey ≠ "" →
        ValidateConfig (some cfg) =
          Except.ok { cfg with
                      Region := if cfg.Region = "" then "us-east-1"
                        else cfg.Region }) := by
  refine ⟨rfl, ?_⟩
  intro cfg
  refine ⟨?_, ?_, ?_⟩
  · intro h
    simp [ValidateConfig, h]
  · intro hb hcred
    refine ⟨.wrapErr (S3Err.errInvalidConfig.message ++
      ": access key ID and secret access key are required") .errInvalidConfig,
      ?_, rfl⟩
    rcases hcred with h | h <;> simp [ValidateConfig, hb, h]
  · intro hb ha hs
    by_cases hr : cfg.Region = "" <;> simp [ValidateConfig, hb, ha, hs, hr]

/-- C6 witness: a config with bucket and credentials and an empty region is
accepted with the region defaulted and nothing else changed. -/
theorem validateConfig_spec_witness :
    ValidateConfig (some
      { Provider := "", Region := "", AccessKeyID := "ak",
        SecretAccessKey := "sk", Endpoint := "", BucketName := "b",
        UseSSL := false, UsePathStyle := none }) =
    Except.ok
      { Provider := "", Region := "us-east-1", AccessKeyID := "ak",
        SecretAccessKey := "sk", Endpoint := "", BucketName := "b",
        UseSSL := false, UsePathStyle := none } :=
  (validateConfig_spec.2 _).2.2 (by decide) (by decide) (by decide)

/-- C5: the MinIO scenario: provider minio, endpoint http://localhost:9000,
region eu-west-1, any credentials and bucket, any caller TLS flag and
addressing style: resolution succeeds with the region forced back to
us-east-1, TLS forced off by the insecure scheme, and path-style forced on
regardless of the caller input. -/
theorem minio_scenario_resolution (ak sk b : String) (ssl : Bool)
    (ups : Option Bool) (hak : ak ≠ "") (hsk : sk ≠ "") (hb : b ≠ "") :
    NewClientResolve (some
      { Provider := "minio", Region := "eu-west-1", AccessKeyID := ak,
        SecretAccessKey := sk, Endpoint := "http://localhost:9000",
        BucketName := b, UseSSL := ssl, UsePathStyle := ups }) =
    Except.ok
      { Provider := "minio", Region := "us-east-1", AccessKeyID := ak,
        SecretAccessKey := sk, Endpoint := "http://localhost:9000",
        BucketName := b, UseSSL := false, UsePathStyle := some true } := by
  have hvc : ValidateConfig (some
      { Provider := "minio", Region := "eu-west-1", AccessKeyID := ak,
        SecretAccessKey := sk, Endpoint := "http://localhost:9000",
        BucketName := b, UseSSL := ssl, UsePathStyle := ups }) =
      Except.ok
        { Provider := "minio", Region := "eu-west-1", AccessKeyID := ak,
          SecretAccessKey := sk, Endpoint := "http://localhost:9000",
          BucketName := b, UseSSL := ssl, UsePathStyle := ups } := by
    simp [ValidateConfig, hb, hak, hsk]
  cases ups with
  | none =>
    simp only [NewClientResolve, hvc]
    rfl
  | some p =>
    simp only [NewClientResolve, hvc]
    rfl

/-- C5 witness: the scenario at concrete credentials, bucket, TLS flag and an
explicitly virtual-hosted addressing style, which is still forced to
path-style. -/
theorem minio_scenario_resolution_witness :
    NewClientResolve (some
      { Provider := "minio", Region := "eu-west-1", AccessKeyID := "ak",
        SecretAccessKey := "sk", Endpoint := "http://localhost:9000",
        BucketName := "b", UseSSL := true, UsePathStyle := some false }) =
    Except.ok
      { Provider := "minio", Region := "us-east-1", AccessKeyID := "ak",
        SecretAccessKey := "sk", Endpoint := "http://localhost:9000",
        BucketName := "b", UseSSL := false, UsePathStyle := some true } :=
  minio_scenario_resolution "ak" "sk" "b" true (some false) (by decide)
    (by decide) (by decide)

/-- C2 (amended): every configuration with provider minio and an empty
endpoint fails resolution; when bucket and both credentials are supplied the
failure is the plain endpoint error, which does not match `ErrInvalidConfig`
under the error-kind check (with empty bucket or credentials the failure
comes earlier, from general validation). -/
theorem minio_empty_endpoint_fails (cfg : Config) (hp : cfg.Provider = "minio")
    (he : cfg.Endpoint = "") :
    (∃ e, NewClientResolve (some cfg) = .error e) ∧
    (cfg.BucketName ≠ "" → cfg.AccessKeyID ≠ "" → cfg.SecretAccessKey ≠ "" →
      NewClientResolve (some cfg) =
        .error (.goError "MinIO requires an endpoint to be specified") ∧
      errorsIsOpt (some (.goError "MinIO requires an endpoint to be specified"))
        .errInvalidConfig = false) := by
  obtain ⟨p, r, a, s, ep, b, ssl, ups⟩ := cfg
  change p = "minio" at hp
  change ep = "" at he
  subst hp
  subst he
  have hstrong : b ≠ "" → a ≠ "" → s ≠ "" →
      NewClientResolve (some
        { Provider := "minio", Region := r, AccessKeyID := a,
          SecretAccessKey := s, Endpoint := "", BucketName := b,
          UseSSL := ssl, UsePathStyle := ups }) =
      .error (.goError "MinIO requires an endpoint to be specified") := by
    intro hb ha hs
    by_cases hr : r = ""
    · subst hr
      cases ups <;> simp [NewClientResolve, ValidateConfig, hb, ha, hs,
        validateProvider, autoConfigureForProvider, ValidateMinIOConfig]
    · by_cases hru : r = "us-east-1"
      · subst hru
        cases ups <;> simp [NewClientResolve, ValidateConfig, hb, ha, hs, hr,
          validateProvider, autoConfigureForProvider, ValidateMinIOConfig]
      · cases ups <;> simp [NewClientResolve, ValidateConfig, hb, ha, hs, hr,
          hru, validateProvider, autoConfigureForProvider, ValidateMinIOConfig]
  refine ⟨?_, fun hb ha hs => ⟨hstrong hb ha hs, rfl⟩⟩
  by_cases hb : b = ""
  · exact ⟨.errEmptyBucketName, by simp [NewClientResolve, ValidateConfig, hb]⟩
  · by_cases ha : a = ""
    · exact ⟨.wrapErr (S3Err.errInvalidConfig.message ++
        ": access key ID and secret access key are required") .errInvalidConfig,
        by simp [NewClientResolve, ValidateConfig, hb, ha]⟩
    · by_cases hs : s = ""
      · exact ⟨.wrapErr (S3Err.errInvalidConfig.message ++
          ": access key ID and secret access key are required") .errInvalidConfig,
          by simp [NewClientResolve, ValidateConfig, hb, ha, hs]⟩
      · exact ⟨.goError "MinIO requires an endpoint to be specified",
          hstrong hb ha hs⟩

/-- C2 witness: a fully supplied MinIO config with an empty endpoint fails
with the plain endpoint error. -/
theorem minio_empty_endpoint_fails_witness :
    NewClientResolve (some
      { Provider := "minio", Region := "eu-west-1", AccessKeyID := "a",
        SecretAccessKey := "s", Endpoint := "", BucketName := "bk",
        UseSSL := true, UsePathStyle := some false }) =
      .error (.goError "MinIO requires an endpoint to be specified") :=
  ((minio_empty_endpoint_fails _ rfl rfl).2 (by decide) (by decide)
    (by decide)).1

end GoCommon
